import Mathlib

/-!
Shallow embedding of the festibal push backend (a small Express/Node HTTP
relay service).  The repository holds four near-duplicate variants of the
same service:

* `src/server.js` (first document): the full variant — PostgreSQL-backed
  token registration, news create/list, broadcast, single send.
* `src/server.js` (second document): the stand-alone single-send variant.
* `src/unnamed/part_000` (first document): the in-memory variant — token
  set in memory, broadcast, single send.
* `src/unnamed/part_000` (second document): the persistent variant —
  identical register-token/broadcast/send handlers to the full variant,
  without the news endpoints.

Route handlers are embedded as pure functions over explicit store state.
JavaScript request-body values are modelled by `JsVal` so that JS
truthiness (`!x`) and `typeof x !== 'string'` checks are captured
faithfully.  Database time (`NOW()`) is modelled by a monotone counter in
the store state, one tick per write.  The PostgreSQL driver's parameter
passing is abstracted: a parameter value is stored in the row as the
`JsVal` that JavaScript supplied (exact for the string/null parameters the
service's data model uses).
-/

/-- JavaScript values that can appear in a parsed JSON request body (plus
`undef` for an absent field after destructuring).  Flat scalars suffice for
every check the service performs. -/
inductive JsVal where
  | undef
  | jnull
  | jbool (b : Bool)
  | jnum (n : Int)
  | jstr (s : String)
  deriving DecidableEq, Repr

/-- JavaScript truthiness of a `JsVal` (`!x` in the source negates this). -/
def truthy : JsVal → Bool
  | .undef => false
  | .jnull => false
  | .jbool b => b
  | .jnum n => n != 0
  | .jstr s => s != ""

/-- Embeds `typeof x === 'string'`. -/
def isStr : JsVal → Bool
  | .jstr _ => true
  | _ => false

/-- Extracts the string from a `JsVal` known to be a string (used only
under an `isStr` guard, matching the source's validated access). -/
def asStr : JsVal → String
  | .jstr s => s
  | _ => ""

/-- Embeds the JavaScript `a || b` idiom (first operand when truthy,
otherwise the second), as in `platform || null` and
`ticket.message || 'Expo push error'`. -/
def jsOr (a b : JsVal) : JsVal :=
  if truthy a then a else b

/-- A single-string non-empty check: the value is a string and truthy. -/
def isNonEmptyStr (v : JsVal) : Bool :=
  isStr v && truthy v

/-- A request-body field that is either absent or a JSON string, the domain
the data model gives the optional `platform` attribute. -/
def strOrAbsent (v : JsVal) : Prop :=
  v = JsVal.undef ∨ ∃ s, v = JsVal.jstr s

/-- One per-message delivery ticket from the push API
(`{status, message?, details?}`); absent properties are `undef`. -/
structure Ticket where
  status : JsVal
  message : JsVal
  details : JsVal
  deriving DecidableEq, Repr

/-- The `data` property of the parsed upstream JSON payload, as the
source's `Array.isArray(data.data)` check discriminates it: either not an
array at all (absent = `undef`, or some non-array value) or an array of
tickets. -/
inductive DataField where
  | nonArray (v : JsVal)
  | arr (ts : List Ticket)

/-- The parsed JSON payload of an upstream push-API reply.  `rest` stands
for the payload's remaining properties, which the service never inspects
but echoes wholesale in error responses (`expo: data`). -/
structure ExpoPayload where
  dataField : DataField
  rest : JsVal

/-- Outcome of the outbound `fetch` + `response.json()` pair: either a
transport-level failure (network error or non-JSON body, both landing in
the `catch`) or a parsed JSON payload. -/
inductive UpstreamReply where
  | transportError
  | payload (p : ExpoPayload)

/-- A row of the `news_items` table.  `title`/`message` keep the `JsVal`
the client supplied (validation is truthiness only). -/
structure NewsRow where
  id : Nat
  title : JsVal
  message : JsVal
  createdAt : Nat
  deriving DecidableEq, Repr

/-- A row of the `expo_tokens` table.  `platform` is the column value as
delivered by the driver (`jnull` for SQL NULL). -/
structure TokenRow where
  token : String
  platform : JsVal
  createdAt : Nat
  lastSeenAt : Nat
  deriving DecidableEq, Repr

/-- One outbound message `{to, title, body}` built for the push API. -/
structure OutMsg where
  «to» : JsVal
  title : JsVal
  body : JsVal
  deriving DecidableEq, Repr

/-- An HTTP JSON response.  Fields that a given handler does not set are
`none`; `status` defaults to 200 (`res.json` without `res.status`). -/
structure Response where
  status : Nat
  ok : Option Bool
  error : Option JsVal
  warning : Option String
  expo : Option ExpoPayload
  tickets : Option (List Ticket)
  ticket : Option Ticket
  details : Option JsVal
  items : Option (List NewsRow)
  created : Option NewsRow

/-- A 200 response with no body fields set. -/
def Response.base : Response :=
  ⟨200, none, none, none, none, none, none, none, none, none⟩

/-- An error response `res.status(code).json({ok:false, error: msg})`. -/
def errResp (code : Nat) (msg : String) : Response :=
  { Response.base with status := code, ok := some false, error := some (.jstr msg) }

/-- A plain `res.json({ok:true})`. -/
def okResp : Response :=
  { Response.base with ok := some true }

/-- State of the `expo_tokens` table together with a monotone clock
modelling `NOW()` (one tick per write request). -/
structure TokenStore where
  rows : List TokenRow
  now : Nat

/-- State of the `news_items` table: rows, next SERIAL id (starting at 1),
and the monotone `NOW()` clock. -/
structure NewsStore where
  rows : List NewsRow
  nextId : Nat
  now : Nat

/-- SQL `COALESCE(param, prior)`: the parameter unless it is SQL NULL. -/
def coalesce : JsVal → JsVal → JsVal
  | .jnull, prior => prior
  | p, _ => p

/-- The upsert issued by POST /register-token (server.js lines 203-211):
`INSERT INTO expo_tokens (token, platform) VALUES ($1,$2) ON CONFLICT
(token) DO UPDATE SET last_seen_at = NOW(), platform = COALESCE($2,
expo_tokens.platform)`.  A fresh token is appended; a conflicting row gets
`lastSeenAt := now` and the COALESCE'd platform. -/
def upsertToken (rows : List TokenRow) (tok : String) (param : JsVal) (now : Nat) :
    List TokenRow :=
  if rows.any (fun r => r.token == tok) then
    rows.map (fun r =>
      if r.token == tok then
        { r with lastSeenAt := now, platform := coalesce param r.platform }
      else r)
  else
    rows ++ [⟨tok, param, now, now⟩]

/-- POST /register-token, persistent handler (server.js lines 185-221, and
identically part_000 lines 196-229).  Validation (`!token || typeof token
!== 'string'`) runs first; with no DATABASE_URL the handler succeeds with a
warning and writes nothing; otherwise it upserts.  The follow-up COUNT
query is log-only and has no state effect. -/
def registerToken (configured : Bool) (st : TokenStore) (token platform : JsVal) :
    Response × TokenStore :=
  if !truthy token || !isStr token then
    (errResp 400 "Ongeldig token", st)
  else if !configured then
    ({ Response.base with
        ok := some true
        warning := some "Token niet persistent opgeslagen (geen DATABASE_URL)." }, st)
  else
    (okResp,
     { rows := upsertToken st.rows (asStr token) (jsOr platform .jnull) st.now,
       now := st.now + 1 })

/-- POST /register-token, in-memory handler (part_000 lines 27-43): same
validation, then `tokens.add(token)` on a JS `Set` (insertion order,
duplicates ignored). -/
def registerTokenMem (tokens : List String) (token : JsVal) :
    Response × List String :=
  if !truthy token || !isStr token then
    (errResp 400 "Ongeldig token", tokens)
  else
    (okResp, if tokens.contains (asStr token) then tokens else tokens ++ [asStr token])

/-- The shared sendToExpo helper (server.js lines 294-325, part_000 lines
102-135, identical in both): transport failure is caught as a 500;
`!Array.isArray(data.data) || data.data.length === 0` yields a 500 echoing
the raw payload; otherwise `{ok:true, tickets: data.data}`. -/
def sendToExpo (reply : UpstreamReply) : Response :=
  match reply with
  | .transportError => errResp 500 "Push failed (server error)"
  | .payload p =>
    match p.dataField with
    | .nonArray _ =>
      { Response.base with
          status := 500
          ok := some false
          error := some (.jstr "Ongeldige Expo push response")
          expo := some p }
    | .arr ts =>
      if ts.isEmpty then
        { Response.base with
            status := 500
            ok := some false
            error := some (.jstr "Ongeldige Expo push response")
            expo := some p }
      else
        { Response.base with ok := some true, tickets := some ts }

/-- POST /send-notification as it appears in the full and in-memory
variants (server.js lines 277-289, part_000 lines 50-64): validate, build
one message, delegate to sendToExpo.  The second component records the
outbound call: `none` means zero upstream invocations, `some msgs` means
one call carrying `msgs`. -/
def sendNotification («to» title body : JsVal) (reply : UpstreamReply) :
    Response × Option (List OutMsg) :=
  if !truthy «to» || !truthy title || !truthy body then
    (errResp 400 "to, title en body zijn verplicht", none)
  else
    (sendToExpo reply, some [⟨«to», title, body⟩])

/-- POST /send-notification in the stand-alone single-send variant
(server.js lines 379-433): same validation and fetch, but the handler then
inspects the first ticket: status `ok` returns `{ok:true, ticket}`,
anything else returns 400 with `ticket.message || 'Expo push error'` and
`ticket.details || null`. -/
def sendNotificationSingle («to» title body : JsVal) (reply : UpstreamReply) :
    Response :=
  if !truthy «to» || !truthy title || !truthy body then
    errResp 400 "to, title en body zijn verplicht"
  else
    match reply with
    | .transportError => errResp 500 "Push failed (server error)"
    | .payload p =>
      match p.dataField with
      | .nonArray _ =>
        { Response.base with
            status := 500
            ok := some false
            error := some (.jstr "Ongeldige Expo push response")
            expo := some p }
      | .arr [] =>
        { Response.base with
            status := 500
            ok := some false
            error := some (.jstr "Ongeldige Expo push response")
            expo := some p }
      | .arr (t :: _) =>
        if t.status = JsVal.jstr "ok" then
          { Response.base with ok := some true, ticket := some t }
        else
          { Response.base with
              status := 400
              ok := some false
              error := some (jsOr t.message (.jstr "Expo push error"))
              details := some (jsOr t.details .jnull) }

/-- POST /broadcast, full/persistent variant (server.js lines 227-270,
part_000 lines 235-278): validate title/body, require DATABASE_URL, read
all tokens, 400 when none, else one sendToExpo call with one message per
token.  Second component as in `sendNotification`. -/
def broadcast (configured : Bool) (rows : List TokenRow) (title body : JsVal)
    (reply : UpstreamReply) : Response × Option (List OutMsg) :=
  if !truthy title || !truthy body then
    (errResp 400 "title en body zijn verplicht", none)
  else if !configured then
    (errResp 500 "DATABASE_URL ontbreekt, geen tokens beschikbaar.", none)
  else if rows.isEmpty then
    (errResp 400 "Geen geregistreerde tokens om naar te sturen", none)
  else
    (sendToExpo reply, some (rows.map (fun r => ⟨.jstr r.token, title, body⟩)))

/-- POST /broadcast, in-memory variant (part_000 lines 71-97): no
configuration check, `tokens.size === 0` gates the 400. -/
def broadcastMem (tokens : List String) (title body : JsVal)
    (reply : UpstreamReply) : Response × Option (List OutMsg) :=
  if !truthy title || !truthy body then
    (errResp 400 "title en body zijn verplicht", none)
  else if tokens.isEmpty then
    (errResp 400 "Geen geregistreerde tokens om naar te sturen", none)
  else
    (sendToExpo reply, some (tokens.map (fun t => ⟨.jstr t, title, body⟩)))

/-- POST /news (server.js lines 127-175): the DATABASE_URL check precedes
validation; a valid insert returns 201 with the created row (`RETURNING id,
title, message, created_at`). -/
def postNews (configured : Bool) (st : NewsStore) (title message : JsVal) :
    Response × NewsStore :=
  if !configured then
    (errResp 500 "DATABASE_URL ontbreekt, nieuws kan niet opgeslagen worden.", st)
  else if !truthy title || !truthy message then
    (errResp 400 "title en message zijn verplicht", st)
  else
    let row : NewsRow := ⟨st.nextId, title, message, st.now⟩
    ({ Response.base with status := 201, created := some row },
     ⟨st.rows ++ [row], st.nextId + 1, st.now + 1⟩)

/-- Insert into a list kept sorted by `createdAt` descending. -/
def insertDesc (r : NewsRow) : List NewsRow → List NewsRow
  | [] => [r]
  | x :: xs => if x.createdAt ≤ r.createdAt then r :: x :: xs else x :: insertDesc r xs

/-- Sort by `createdAt` descending, embedding `ORDER BY created_at DESC`
(creation times are distinct under the monotone clock, so the order is
well defined). -/
def sortDesc : List NewsRow → List NewsRow
  | [] => []
  | x :: xs => insertDesc x (sortDesc xs)

/-- GET /news (server.js lines 92-121): 500 when unconfigured, else all
rows ordered newest first. -/
def getNews (configured : Bool) (st : NewsStore) : Response :=
  if !configured then
    errResp 500 "DATABASE_URL ontbreekt, geen databaseverbinding voor nieuws."
  else
    { Response.base with items := some (sortDesc st.rows) }

/-! Helper lemmas shared by the claim theorems. -/

lemma any_token_eq_false {rows : List TokenRow} {tok : String}
    (h : ∀ r ∈ rows, r.token ≠ tok) :
    rows.any (fun r => r.token == tok) = false := by
  rw [List.any_eq_false]
  intro r hr
  simpa using h r hr

lemma upsert_of_fresh (rows : List TokenRow) (tok : String) (param : JsVal)
    (now : Nat) (h : ∀ r ∈ rows, r.token ≠ tok) :
    upsertToken rows tok param now = rows ++ [⟨tok, param, now, now⟩] := by
  unfold upsertToken
  rw [if_neg]
  simp [any_token_eq_false h]

lemma filter_map_update_nomatch (rows : List TokenRow) (tok : String)
    (now : Nat) (param : JsVal) (h : ∀ r ∈ rows, r.token ≠ tok) :
    (rows.map (fun r =>
        if r.token == tok then
          { r with lastSeenAt := now, platform := coalesce param r.platform }
        else r)).filter (fun r => r.token == tok) = [] := by
  induction rows with
  | nil => rfl
  | cons a as ih =>
    have ha : (a.token == tok) = false := by
      simpa using h a (List.mem_cons_self a as)
    simp only [List.map_cons, ha, Bool.false_eq_true, if_false, List.filter_cons, ha]
    exact ih (fun r hr => h r (List.mem_cons_of_mem a hr))

lemma jsOr_jnull_of_strOrAbsent (v : JsVal) (hv : strOrAbsent v) :
    jsOr v JsVal.jnull = if isNonEmptyStr v then v else JsVal.jnull := by
  rcases hv with h | ⟨s, h⟩ <;> subst h
  · rfl
  · simp [jsOr, isNonEmptyStr, isStr, truthy]

lemma coalesce_platform (p1 p2 : JsVal) (hp1 : strOrAbsent p1) (hp2 : strOrAbsent p2) :
    coalesce (jsOr p2 JsVal.jnull) (jsOr p1 JsVal.jnull) =
      if isNonEmptyStr p2 then p2 else if isNonEmptyStr p1 then p1 else JsVal.jnull := by
  rcases hp2 with h2 | ⟨s2, h2⟩ <;> rcases hp1 with h1 | ⟨s1, h1⟩ <;> subst h2 <;> subst h1
  · rfl
  · by_cases hs1 : s1 = "" <;> simp [jsOr, coalesce, isNonEmptyStr, isStr, truthy, hs1]
  · by_cases hs2 : s2 = "" <;> simp [jsOr, coalesce, isNonEmptyStr, isStr, truthy, hs2]
  · by_cases hs2 : s2 = "" <;> by_cases hs1 : s1 = "" <;>
      simp [jsOr, coalesce, isNonEmptyStr, isStr, truthy, hs2, hs1]

lemma registerToken_valid_cond (tok : String) (htok : tok ≠ "") :
    (!truthy (JsVal.jstr tok) || !isStr (JsVal.jstr tok)) = false := by
  simp [truthy, isStr, htok]

/-! Claim theorems. -/

/-- Claim C1: registering the same (fresh, valid) token twice against a
configured store leaves exactly one `expo_tokens` row with that token; the
second call sets `lastSeenAt` to the later clock value, and the stored
`platform` is the second call's value when that is a non-empty string,
otherwise the value left by the first call (the first call's platform when
non-empty, SQL NULL otherwise). -/
theorem registerToken_upsert_once (s0 : TokenStore) (tok : String) (p1 p2 : JsVal)
    (htok : tok ≠ "") (hfresh : ∀ r ∈ s0.rows, r.token ≠ tok)
    (hp1 : strOrAbsent p1) (hp2 : strOrAbsent p2) :
    ((registerToken true (registerToken true s0 (.jstr tok) p1).2 (.jstr tok) p2).2.rows.filter
        (fun r => r.token == tok)) =
      [⟨tok, (if isNonEmptyStr p2 then p2 else if isNonEmptyStr p1 then p1 else JsVal.jnull),
        s0.now, s0.now + 1⟩] := by
  have hcond := registerToken_valid_cond tok htok
  rw [registerToken, registerToken]
  rw [if_neg (by simp [hcond]), if_neg (by simp), if_neg (by simp [hcond]), if_neg (by simp)]
  simp only [asStr]
  rw [upsert_of_fresh s0.rows tok (jsOr p1 JsVal.jnull) s0.now hfresh]
  unfold upsertToken
  rw [if_pos (by simp [List.any_append])]
  rw [List.map_append, List.filter_append]
  rw [filter_map_update_nomatch s0.rows tok (s0.now + 1) (jsOr p2 JsVal.jnull) hfresh]
  simp [coalesce_platform p1 p2 hp1 hp2]

/-- Witness for C1 at a concrete input: token "t", platforms "ios" then
"android". -/
theorem registerToken_upsert_once_witness :
    ((registerToken true (registerToken true ⟨[], 0⟩ (.jstr "t") (.jstr "ios")).2
        (.jstr "t") (.jstr "android")).2.rows.filter (fun r => r.token == "t")) =
      [⟨"t", (if isNonEmptyStr (.jstr "android") then JsVal.jstr "android"
              else if isNonEmptyStr (.jstr "ios") then JsVal.jstr "ios" else JsVal.jnull),
        0, 1⟩] :=
  registerToken_upsert_once ⟨[], 0⟩ "t" (.jstr "ios") (.jstr "android")
    (by decide) (by intro r hr; exact absurd hr (List.not_mem_nil r))
    (Or.inr ⟨"ios", rfl⟩) (Or.inr ⟨"android", rfl⟩)

/-- Claim C2, counterexample: with the store unconfigured and `title`
absent, POST /news answers 500, not the 400 the claim requires (the
DATABASE_URL check precedes validation). -/
theorem postNews_missing_unconfigured_counterexample :
    (postNews false ⟨[], 1, 0⟩ .undef (.jstr "M")).1.status = 500 ∧
    ¬ (postNews false ⟨[], 1, 0⟩ .undef (.jstr "M")).1.status = 400 := by
  decide

/-- Claim C2 as amended: when the store is configured, a POST /news with a
falsy `title` or `message` fails with 400 and the store is unchanged; when
the store is unconfigured, every POST /news fails with 500 (the
configuration check runs before validation). -/
theorem postNews_validation (st : NewsStore) (title message : JsVal)
    (h : truthy title = false ∨ truthy message = false) :
    postNews true st title message = (errResp 400 "title en message zijn verplicht", st) ∧
    (postNews false st title message).1.status = 500 := by
  constructor
  · rcases h with h | h <;> simp [postNews, h]
  · simp [postNews, errResp]

/-- Witness for C2's amended theorem: absent title, message "M". -/
theorem postNews_validation_witness :
    postNews true ⟨[], 1, 0⟩ .undef (.jstr "M") =
      (errResp 400 "title en message zijn verplicht", ⟨[], 1, 0⟩) ∧
    (postNews false ⟨[], 1, 0⟩ .undef (.jstr "M")).1.status = 500 :=
  postNews_validation ⟨[], 1, 0⟩ .undef (.jstr "M") (Or.inl rfl)

/-- Claim C3: a POST /register-token whose token is absent, the empty
string, or not a string gets a 400 "Ongeldig token" response in the
persistent handler (for either configuration state, store untouched) and in
the in-memory handler (token set untouched). -/
theorem registerToken_invalid_400 (configured : Bool) (st : TokenStore)
    (tokens : List String) (token platform : JsVal)
    (h : token = JsVal.undef ∨ token = JsVal.jstr "" ∨ isStr token = false) :
    registerToken configured st token platform = (errResp 400 "Ongeldig token", st) ∧
    registerTokenMem tokens token = (errResp 400 "Ongeldig token", tokens) := by
  have hcond : (!truthy token || !isStr token) = true := by
    rcases h with h | h | h
    · subst h; rfl
    · subst h; rfl
    · simp [h]
  rw [registerToken, registerTokenMem, if_pos hcond, if_pos hcond]
  exact ⟨rfl, rfl⟩

/-- Witness for C3: a numeric token with an unconfigured store. -/
theorem registerToken_invalid_400_witness :
    registerToken false ⟨[], 0⟩ (.jnum 7) .undef = (errResp 400 "Ongeldig token", ⟨[], 0⟩) ∧
    registerTokenMem [] (.jnum 7) = (errResp 400 "Ongeldig token", []) :=
  registerToken_invalid_400 false ⟨[], 0⟩ [] (.jnum 7) .undef (Or.inr (Or.inr rfl))

/-- Claim C4: sendToExpo answers 500 on transport failure; when the parsed
payload's `data` property is not an array or is the empty array it answers
500 with the raw payload echoed in the `expo` field; when `data` is a
non-empty ticket array it answers `{ok:true, tickets: data}`. -/
theorem sendToExpo_spec (v r1 r2 r3 : JsVal) (t : Ticket) (ts : List Ticket) :
    (sendToExpo .transportError).status = 500 ∧
    (sendToExpo (.payload ⟨.nonArray v, r1⟩)).status = 500 ∧
    (sendToExpo (.payload ⟨.nonArray v, r1⟩)).expo = some ⟨.nonArray v, r1⟩ ∧
    (sendToExpo (.payload ⟨.arr [], r2⟩)).status = 500 ∧
    (sendToExpo (.payload ⟨.arr [], r2⟩)).expo = some ⟨.arr [], r2⟩ ∧
    sendToExpo (.payload ⟨.arr (t :: ts), r3⟩) =
      { Response.base with ok := some true, tickets := some (t :: ts) } := by
  refine ⟨rfl, rfl, rfl, rfl, rfl, ?_⟩
  simp [sendToExpo]

/-- Claim C5, counterexample: in the full variant's POST /send-notification
a valid request whose upstream reply is a non-empty ticket array with first
ticket status "error" is answered 200 `{ok:true, tickets}`, not the 400 the
claim requires (only the stand-alone single-send variant inspects the
ticket status). -/
theorem sendNotification_rejection_counterexample :
    (sendNotification (.jstr "ExponentPushToken[x]") (.jstr "T") (.jstr "B")
        (.payload ⟨.arr [⟨.jstr "error", .jstr "DeviceNotRegistered", .undef⟩], .undef⟩)).1.status
      = 200 ∧
    ¬ (sendNotification (.jstr "ExponentPushToken[x]") (.jstr "T") (.jstr "B")
        (.payload ⟨.arr [⟨.jstr "error", .jstr "DeviceNotRegistered", .undef⟩], .undef⟩)).1.status
      = 400 := by
  decide

/-- Claim C5 as amended: on a valid request whose upstream reply is a
non-empty ticket array with first ticket status other than "ok", the
stand-alone single-send variant answers 400 with the ticket's message (or
the default "Expo push error") and its details (or null); the full and
in-memory variants' POST /send-notification instead answer 200
`{ok:true, tickets}` regardless of ticket status. -/
theorem sendNotification_rejection («to» title body : JsVal) (t : Ticket)
    (ts : List Ticket) (rest : JsVal)
    (h1 : truthy «to» = true) (h2 : truthy title = true) (h3 : truthy body = true)
    (h4 : ¬ t.status = JsVal.jstr "ok") :
    sendNotificationSingle «to» title body (.payload ⟨.arr (t :: ts), rest⟩) =
      { Response.base with
          status := 400
          ok := some false
          error := some (jsOr t.message (.jstr "Expo push error"))
          details := some (jsOr t.details .jnull) } ∧
    (sendNotification «to» title body (.payload ⟨.arr (t :: ts), rest⟩)).1 =
      { Response.base with ok := some true, tickets := some (t :: ts) } := by
  constructor
  · simp [sendNotificationSingle, h1, h2, h3, h4]
  · simp [sendNotification, sendToExpo, h1, h2, h3]

/-- Witness for C5's amended theorem: the DeviceNotRegistered ticket. -/
theorem sendNotification_rejection_witness :
    sendNotificationSingle (.jstr "ExponentPushToken[x]") (.jstr "T") (.jstr "B")
        (.payload ⟨.arr [⟨.jstr "error", .jstr "DeviceNotRegistered", .undef⟩], .undef⟩) =
      { Response.base with
          status := 400
          ok := some false
          error := some (jsOr (.jstr "DeviceNotRegistered") (.jstr "Expo push error"))
          details := some (jsOr .undef .jnull) } ∧
    (sendNotification (.jstr "ExponentPushToken[x]") (.jstr "T") (.jstr "B")
        (.payload ⟨.arr [⟨.jstr "error", .jstr "DeviceNotRegistered", .undef⟩], .undef⟩)).1 =
      { Response.base with
          ok := some true
          tickets := some [⟨.jstr "error", .jstr "DeviceNotRegistered", .undef⟩] } :=
  sendNotification_rejection (.jstr "ExponentPushToken[x]") (.jstr "T") (.jstr "B")
    ⟨.jstr "error", .jstr "DeviceNotRegistered", .undef⟩ [] .undef
    rfl rfl rfl (by decide)

/-- Claim C6: a POST /broadcast with truthy title and body and zero
registered tokens answers 400 "Geen geregistreerde tokens om naar te
sturen" and performs no upstream call, both in the configured persistent
variant and in the in-memory variant. -/
theorem broadcast_no_recipients (title body : JsVal) (reply : UpstreamReply)
    (h1 : truthy title = true) (h2 : truthy body = true) :
    broadcast true [] title body reply =
      (errResp 400 "Geen geregistreerde tokens om naar te sturen", none) ∧
    broadcastMem [] title body reply =
      (errResp 400 "Geen geregistreerde tokens om naar te sturen", none) := by
  constructor
  · simp [broadcast, h1, h2]
  · simp [broadcastMem, h1, h2]

/-- Witness for C6: title "T", body "B", transport-failing upstream. -/
theorem broadcast_no_recipients_witness :
    broadcast true [] (.jstr "T") (.jstr "B") .transportError =
      (errResp 400 "Geen geregistreerde tokens om naar te sturen", none) ∧
    broadcastMem [] (.jstr "T") (.jstr "B") .transportError =
      (errResp 400 "Geen geregistreerde tokens om naar te sturen", none) :=
  broadcast_no_recipients (.jstr "T") (.jstr "B") .transportError rfl rfl

/-- Claim C7: a POST /register-token with a valid (non-empty string) token
while no store connection is configured answers 200 with `ok:true` and the
warning flag, and leaves the store untouched. -/
theorem registerToken_degraded (st : TokenStore) (s : String) (platform : JsVal)
    (h : s ≠ "") :
    registerToken false st (.jstr s) platform =
      ({ Response.base with
          ok := some true
          warning := some "Token niet persistent opgeslagen (geen DATABASE_URL)." }, st) ∧
    (registerToken false st (.jstr s) platform).1.status = 200 := by
  have hcond := registerToken_valid_cond s h
  rw [registerToken, if_neg (by simp [hcond]), if_pos (by simp)]
  exact ⟨rfl, rfl⟩

/-- Witness for C7: token "t" with a platform supplied. -/
theorem registerToken_degraded_witness :
    registerToken false ⟨[], 0⟩ (.jstr "t") (.jstr "ios") =
      ({ Response.base with
          ok := some true
          warning := some "Token niet persistent opgeslagen (geen DATABASE_URL)." }, ⟨[], 0⟩) ∧
    (registerToken false ⟨[], 0⟩ (.jstr "t") (.jstr "ios")).1.status = 200 :=
  registerToken_degraded ⟨[], 0⟩ "t" (.jstr "ios") (by decide)

/-- Claim C8: from an empty news store, a POST /news with truthy title and
message answers 201 with the created record (id 1, first clock value) and a
following GET /news lists exactly that item; after a second POST, GET /news
lists both items newest first. -/
theorem news_round_trip (t1 m1 t2 m2 : JsVal)
    (h1 : truthy t1 = true) (h2 : truthy m1 = true)
    (h3 : truthy t2 = true) (h4 : truthy m2 = true) :
    (postNews true ⟨[], 1, 0⟩ t1 m1).1.status = 201 ∧
    (postNews true ⟨[], 1, 0⟩ t1 m1).1.created = some ⟨1, t1, m1, 0⟩ ∧
    (getNews true (postNews true ⟨[], 1, 0⟩ t1 m1).2).items = some [⟨1, t1, m1, 0⟩] ∧
    (getNews true (postNews true (postNews true ⟨[], 1, 0⟩ t1 m1).2 t2 m2).2).items =
      some [⟨2, t2, m2, 1⟩, ⟨1, t1, m1, 0⟩] := by
    simp [postNews, getNews, sortDesc, insertDesc, h1, h2, h3, h4]

/-- Witness for C8: titles "T", "T2" and messages "M", "M2". -/
theorem news_round_trip_witness :
    (postNews true ⟨[], 1, 0⟩ (.jstr "T") (.jstr "M")).1.status = 201 ∧
    (postNews true ⟨[], 1, 0⟩ (.jstr "T") (.jstr "M")).1.created =
      some ⟨1, .jstr "T", .jstr "M", 0⟩ ∧
    (getNews true (postNews true ⟨[], 1, 0⟩ (.jstr "T") (.jstr "M")).2).items =
      some [⟨1, .jstr "T", .jstr "M", 0⟩] ∧
    (getNews true (postNews true (postNews true ⟨[], 1, 0⟩ (.jstr "T") (.jstr "M")).2
        (.jstr "T2") (.jstr "M2")).2).items =
      some [⟨2, .jstr "T2", .jstr "M2", 1⟩, ⟨1, .jstr "T", .jstr "M", 0⟩] :=
  news_round_trip (.jstr "T") (.jstr "M") (.jstr "T2") (.jstr "M2") rfl rfl rfl rfl

/-- Claim C9: a POST /send-notification with a falsy `to`, `title` or
`body` answers 400 "to, title en body zijn verplicht" and makes zero
outbound calls to the push API (the second component, recording the
upstream invocation, is `none`).  The definition covers the full and
in-memory variants, whose handlers are identical. -/
theorem sendNotification_missing_field («to» title body : JsVal) (reply : UpstreamReply)
    (h : truthy «to» = false ∨ truthy title = false ∨ truthy body = false) :
    sendNotification «to» title body reply =
      (errResp 400 "to, title en body zijn verplicht", none) := by
  rcases h with h | h | h <;> simp [sendNotification, h]

/-- Witness for C9: missing body. -/
theorem sendNotification_missing_field_witness :
    sendNotification (.jstr "ExponentPushToken[x]") (.jstr "T") .undef .transportError =
      (errResp 400 "to, title en body zijn verplicht", none) :=
  sendNotification_missing_field (.jstr "ExponentPushToken[x]") (.jstr "T") .undef
    .transportError (Or.inr (Or.inr rfl))

/-- Claim C10: validation of `title`, `body` and `message` is JS
truthiness only, not a string-type check: a numeric title/message passes
POST /news validation and is inserted verbatim; numeric title/body pass
POST /broadcast and POST /send-notification validation and are forwarded
upstream inside the outbound messages; only POST /register-token's `token`
additionally requires a string, so a truthy numeric token is rejected with
400 in both register handlers. -/
theorem truthiness_validation :
    (postNews true ⟨[], 1, 0⟩ (.jnum 7) (.jnum 8)).1.status = 201 ∧
    (postNews true ⟨[], 1, 0⟩ (.jnum 7) (.jnum 8)).2.rows = [⟨1, .jnum 7, .jnum 8, 0⟩] ∧
    (broadcast true [⟨"tok", .jnull, 0, 0⟩] (.jnum 1) (.jnum 2) .transportError).2 =
      some [⟨.jstr "tok", .jnum 1, .jnum 2⟩] ∧
    (sendNotification (.jstr "x") (.jnum 1) (.jnum 2) .transportError).2 =
      some [⟨.jstr "x", .jnum 1, .jnum 2⟩] ∧
    (registerToken true ⟨[], 0⟩ (.jnum 1) .undef).1 = errResp 400 "Ongeldig token" ∧
    (registerTokenMem [] (.jnum 1)).1 = errResp 400 "Ongeldig token" := by
  refine ⟨rfl, rfl, rfl, rfl, ?_, ?_⟩ <;> rfl
